import Mathlib

/-!
Verification development for the EchosysAI MVP trace-ingestion / RCA pipeline
and its presentation layer.

The repository under verification ships the presentation layer (React pages
and components under `frontend/src`) together with a specification of the
pipeline core (Pipeline Coordinator, Analysis Engine, Issue Manager,
Notification Dispatcher, Audit Logger).  The core itself is not part of the
shipped sources, so its operations are modelled here directly from the
specification text; the frontend components are embedded from their
JavaScript sources.
-/

namespace MvpBeta

/-! Data model, following spec section 3. -/

inductive TraceStatus
  | pending
  | analyzing
  | completed
  | failed
deriving DecidableEq, Repr, BEq

structure Trace where
  id : Nat
  owner_id : Nat
  file_name : String
  byte_size : Nat
  uploaded_at : Nat
  status : TraceStatus
deriving DecidableEq, Repr

inductive IssueStatus
  | open_
  | assigned
  | resolved
  | closed
deriving DecidableEq, Repr, BEq

inductive Severity
  | low
  | medium
  | high
  | critical
deriving DecidableEq, Repr, BEq

structure Finding where
  kind : String
  severity : Severity
  title : String
  description : String
  fingerprint : String
  evidence : String
deriving DecidableEq, Repr

structure Issue where
  id : Nat
  trace_id : Nat
  fingerprint : String
  title : String
  description : String
  severity : Severity
  status : IssueStatus
  assigned_to : Option Nat
  created_at : Nat
  updated_at : Nat
  evidence : List String
deriving DecidableEq, Repr

structure Notification where
  id : Nat
  user_id : Nat
  title : String
  message : String
  related_resource : Nat
  read : Bool
  created_at : Nat
deriving DecidableEq, Repr

structure AuditEntry where
  id : Nat
  actor_user_id : Option Nat
  action_type : String
  resource_type : String
  resource_id : Nat
  metadata : String
  created_at : Nat
deriving DecidableEq, Repr

/-- Modelled from the spec: the persistent state touched by the pipeline core
(Trace Store, issue store, notification store, append-only audit log), plus a
logical clock that supplies fresh identifiers and monotone timestamps. -/
structure PipelineState where
  traces : List Trace
  issues : List Issue
  notifications : List Notification
  audit : List AuditEntry
  clock : Nat
deriving DecidableEq, Repr

inductive PipelineErr
  | AlreadyRunning
  | TraceNotFound
  | InvalidTraceState
deriving DecidableEq, Repr

/-! Pipeline core operations, modelled from spec sections 4 and 5.  The
Analysis Engine itself is pluggable (spec section 4.2, non-goals); the
Coordinator is therefore parameterised by the engine outcome. -/

/-- Lookup of a trace by id in the Trace Store. -/
def lookupTrace (l : List Trace) (tid : Nat) : Option Trace :=
  l.find? (fun t => t.id == tid)

/-- Pointwise status update of a trace in the Trace Store. -/
def updateTraceStatus (l : List Trace) (tid : Nat) (st : TraceStatus) : List Trace :=
  l.map (fun t => if t.id == tid then { t with status := st } else t)

/-- Modelled from the spec: the Audit Logger `record` operation appends one
immutable AuditEntry (spec section 4.5); `actor_user_id` is null for
system-initiated actions. -/
def auditRecord (s : PipelineState) (actor : Option Nat) (aty rty : String)
    (rid : Nat) (meta : String) : PipelineState :=
  { s with
    audit := s.audit ++ [{ id := s.clock, actor_user_id := actor, action_type := aty,
                           resource_type := rty, resource_id := rid, metadata := meta,
                           created_at := s.clock }]
    clock := s.clock + 1 }

/-- Modelled from the spec: the Notification Dispatcher delivers a notice to
the trace owner (spec section 4.4, best-effort: a missing recipient is a no-op
and never fails the run). -/
def notifyTraceOwner (s : PipelineState) (tid : Nat) (title msg : String) : PipelineState :=
  match lookupTrace s.traces tid with
  | none => s
  | some t =>
      { s with
        notifications := s.notifications ++
          [{ id := s.clock, user_id := t.owner_id, title := title, message := msg,
             related_resource := tid, read := false, created_at := s.clock }]
        clock := s.clock + 1 }

/-- Modelled from the spec: `start_analysis` (spec section 4.1) transitions a
`pending` trace to `analyzing` atomically; if a run is already `analyzing` for
the same trace id it fails with `AlreadyRunning` and performs no further
action (the returned state is the input state). -/
def start_analysis (s : PipelineState) (tid : Nat) : PipelineState × Option PipelineErr :=
  match lookupTrace s.traces tid with
  | none => (s, some .TraceNotFound)
  | some t =>
      match t.status with
      | .pending => ({ s with traces := updateTraceStatus s.traces tid .analyzing }, none)
      | .analyzing => (s, some .AlreadyRunning)
      | _ => (s, some .InvalidTraceState)

/-- Dedup predicate of the Issue Manager: an existing Issue matches a finding
when it is for the same trace, carries the same fingerprint, and is still in
the `open`-or-`assigned` part of its lifecycle (spec section 4.3). -/
def openAssignedMatch (tid : Nat) (fp : String) (i : Issue) : Bool :=
  i.trace_id == tid && i.fingerprint == fp &&
    (i.status == IssueStatus.open_ || i.status == IssueStatus.assigned)

/-- Number of open-or-assigned issues for a given trace and fingerprint. -/
def openAssignedCount (l : List Issue) (tid : Nat) (fp : String) : Nat :=
  l.countP (openAssignedMatch tid fp)

/-- Fresh Issue materialised from a finding, in `open` status (spec 4.3). -/
def mkIssue (s : PipelineState) (tid : Nat) (f : Finding) : Issue :=
  { id := s.clock, trace_id := tid, fingerprint := f.fingerprint, title := f.title,
    description := f.description, severity := f.severity, status := .open_,
    assigned_to := none, created_at := s.clock, updated_at := s.clock,
    evidence := [f.evidence] }

/-- Repeat-detection update: refresh `updated_at` and append the new evidence,
leaving `status` and `severity` untouched (anti-flapping, spec 4.3). -/
def updIssue (iid : Nat) (now : Nat) (ev : String) (j : Issue) : Issue :=
  if j.id == iid then { j with updated_at := now, evidence := j.evidence ++ [ev] } else j

/-- Modelled from the spec: the Issue Manager `apply_finding` operation
(spec section 4.3).  Looks up an existing Issue by fingerprint among
open-or-assigned issues for the same trace; if found it updates `updated_at`
and appends evidence without touching `status`/`severity`; otherwise it
creates a new `open` Issue, audits `issue_detected` and notifies the trace
owner of `issue_created`. -/
def apply_finding (s : PipelineState) (tid : Nat) (f : Finding) : PipelineState :=
  match s.issues.find? (openAssignedMatch tid f.fingerprint) with
  | some i =>
      { s with issues := s.issues.map (updIssue i.id s.clock f.evidence),
               clock := s.clock + 1 }
  | none =>
      let issue := mkIssue s tid f
      let s1 := { s with issues := s.issues ++ [issue], clock := s.clock + 1 }
      let s2 := auditRecord s1 none "issue_detected" "issue" issue.id f.title
      notifyTraceOwner s2 tid "issue_created" f.title

/-- Modelled from the spec: the Pipeline Coordinator run (spec section 4.1).
After a successful `start_analysis` it audits `trace_analysis_start`, then
acts on the Analysis Engine outcome: a non-recoverable engine error drives the
trace to `failed` with a `trace_analysis_failed` audit entry and no issues or
notifications; a successful outcome applies each finding through the Issue
Manager, notifies the owner of completion, marks the trace `completed` and
audits `trace_analysis_completed`. -/
def run_pipeline (s : PipelineState) (tid : Nat)
    (engineResult : Except String (List Finding)) : PipelineState × Option PipelineErr :=
  match start_analysis s tid with
  | (_, some e) => (s, some e)
  | (s1, none) =>
      let s2 := auditRecord s1 none "trace_analysis_start" "trace" tid ""
      match engineResult with
      | .error msg =>
          let s3 := { s2 with traces := updateTraceStatus s2.traces tid .failed }
          (auditRecord s3 none "trace_analysis_failed" "trace" tid msg, none)
      | .ok findings =>
          let s3 := findings.foldl (fun st f => apply_finding st tid f) s2
          let s4 := notifyTraceOwner s3 tid "trace_completed" ""
          let s5 := { s4 with traces := updateTraceStatus s4.traces tid .completed }
          (auditRecord s5 none "trace_analysis_completed" "trace" tid "", none)

/-! Frontend embeddings, translated from the JavaScript sources under
`frontend/src`. -/

namespace Frontend

/-- Outgoing HTTP request issued through the api client. -/
structure ApiRequest where
  method : String
  path : String
  body : List (String × String)
deriving DecidableEq, Repr

/-- Row of the trace table as rendered by `pages/Traces.js` (the backend list
payload: `id`, `file_name`, `created_at`, `file_size`, `status`). -/
structure TraceRow where
  id : Nat
  file_name : String
  created_at : String
  file_size : Nat
  status : String
deriving DecidableEq, Repr

/-- Embedded from `pages/Traces.js`: the delete IconButton in the actions cell
carries `disabled := loading` only — its availability consults the shared
`loading` flag and nothing else. -/
def deleteButtonDisabled (_trace : TraceRow) (loading : Bool) : Bool :=
  loading

/-- Embedded from `pages/Traces.js` `handleDelete`: issues the DELETE request
for the clicked trace id and then refetches the list, with no condition on the
trace's status. -/
def handleDelete (traceId : Nat) : List ApiRequest :=
  [{ method := "DELETE", path := "/logs/traces/" ++ toString traceId, body := [] },
   { method := "GET", path := "/logs/traces", body := [] }]

/-- Whether clicking delete on a row performs the deletion: the button must
not be disabled (embedded from the actions cell of `pages/Traces.js`). -/
def deletePerformedOnClick (trace : TraceRow) (loading : Bool) : Bool :=
  !(deleteButtonDisabled trace loading)

/-- Issue status domain of the data model (spec section 3), also the exact
option set of the update dialog in `pages/IssuesPage.js`. -/
def issueStatusDomain : List String :=
  ["open", "assigned", "resolved", "closed"]

/-- Embedded from `pages/IssuesPage.js`: the MenuItem values offered by the
status Select of the update dialog. -/
def issuesPageStatusOptions : List String :=
  ["open", "assigned", "resolved", "closed"]

/-- Embedded from `pages/IssuesPage.js` `handleUpdateIssue`: PUTs the dialog's
update data for the selected issue. -/
def handleUpdateIssue (issueId : Nat) (status assigned_to : String) : ApiRequest :=
  { method := "PUT", path := "/api/issues/" ++ toString issueId,
    body := [("status", status), ("assigned_to", assigned_to)] }

/-- Embedded from the SprintBoard component in `components/NotificationCenter.js`:
the three Droppable column ids of the board. -/
def sprintBoardColumns : List String :=
  ["todo", "in_progress", "done"]

/-- Drag-and-drop result object handed to `handleDragEnd` by the DnD library. -/
structure DragResult where
  draggableId : String
  sourceId : String
  destinationId : Option String
deriving DecidableEq, Repr

/-- Embedded from the SprintBoard component in `components/NotificationCenter.js`
`handleDragEnd`: no destination or same column is a no-op; otherwise the issue
is PATCHed with `status := destination.droppableId`. -/
def handleDragEnd (r : DragResult) : Option ApiRequest :=
  match r.destinationId with
  | none => none
  | some dest =>
      if r.sourceId = dest then none
      else some { method := "PATCH", path := "/issues/" ++ r.draggableId,
                  body := [("status", dest)] }

/-- Filter state of `pages/Audit.js` (empty string means the filter is unset). -/
structure AuditFilters where
  actionType : String
  resourceType : String
  startDate : String
  endDate : String
deriving DecidableEq, Repr

/-- Embedded from `pages/Audit.js` `fetchAuditLogs`: each URLSearchParams
entry is appended exactly when the corresponding filter value is truthy
(a non-empty string). -/
def buildAuditParams (f : AuditFilters) : List (String × String) :=
  (if f.actionType ≠ "" then [("action_type", f.actionType)] else []) ++
  (if f.resourceType ≠ "" then [("resource_type", f.resourceType)] else []) ++
  (if f.startDate ≠ "" then [("start_date", f.startDate)] else []) ++
  (if f.endDate ≠ "" then [("end_date", f.endDate)] else [])

/-- Notification row returned by the notifications endpoint. -/
structure NotificationRow where
  id : Nat
  title : String
  message : String
deriving DecidableEq, Repr

/-- Component state of `components/NotificationCenter.js`: the notifications
list, the unread badge count and the popover anchor. -/
structure NCState where
  notifications : List NotificationRow
  unreadCount : Nat
  anchorOpen : Bool
deriving DecidableEq, Repr

/-- Initial useState values of the NotificationCenter component. -/
def ncInit : NCState :=
  { notifications := [], unreadCount := 0, anchorOpen := false }

/-- Embedded from `components/NotificationCenter.js` `fetchNotifications`:
the query parameters sent with the GET /notifications request. -/
def fetchNotificationsParams : List (String × String) :=
  [("unread_only", "true")]

/-- State-changing events of the NotificationCenter component: a fetch
response arriving (`fetchNotifications` sets both the list and the count from
the same payload; `markAsRead` only triggers a refetch), and the popover
opening or closing. -/
inductive NCEvent
  | fetched (data : List NotificationRow)
  | opened
  | closed
deriving DecidableEq, Repr

/-- Embedded from `components/NotificationCenter.js`: the state update each
event performs. -/
def ncStep (s : NCState) (e : NCEvent) : NCState :=
  match e with
  | .fetched data => { s with notifications := data, unreadCount := data.length }
  | .opened => { s with anchorOpen := true }
  | .closed => { s with anchorOpen := false }

/-- States the NotificationCenter component can reach from its initial
useState values. -/
inductive NCReachable : NCState → Prop
  | init : NCReachable ncInit
  | step {s : NCState} (e : NCEvent) : NCReachable s → NCReachable (ncStep s e)

/-- Render outcomes of `components/ProtectedRoute.js`. -/
inductive RouteResult
  | loadingView
  | content
  | redirectLogin
deriving DecidableEq, Repr

/-- Embedded from `components/ProtectedRoute.js`: the loading guard, the
unauthenticated allowance for the home path, and the redirect to /login. -/
def protectedRoute (loading : Bool) (pathname : String) (currentUser : Option Nat) :
    RouteResult :=
  if loading then .loadingView
  else if pathname = "/" then .content
  else
    match currentUser with
    | none => .redirectLogin
    | some _ => .content

end Frontend

/-! Helper lemmas about the pipeline operations. -/

theorem lookupTrace_updateTraceStatus (l : List Trace) (tid : Nat) (st : TraceStatus) :
    lookupTrace (updateTraceStatus l tid st) tid =
      (lookupTrace l tid).map (fun t => { t with status := st }) := by
  induction l with
  | nil => rfl
  | cons a l ih =>
      unfold lookupTrace updateTraceStatus at ih ⊢
      by_cases h : (a.id == tid) = true
      · have h1 : ((({ a with status := st } : Trace).id == tid) = true) := h
        rw [List.map_cons, if_pos h,
          List.find?_cons_of_pos (p := fun t : Trace => t.id == tid) _ h1,
          List.find?_cons_of_pos (p := fun t : Trace => t.id == tid) _ h, Option.map_some']
      · rw [List.map_cons, if_neg h,
          List.find?_cons_of_neg (p := fun t : Trace => t.id == tid) _ h,
          List.find?_cons_of_neg (p := fun t : Trace => t.id == tid) _ h]
        exact ih

theorem notifyTraceOwner_issues (s : PipelineState) (tid : Nat) (a b : String) :
    (notifyTraceOwner s tid a b).issues = s.issues := by
  unfold notifyTraceOwner
  cases lookupTrace s.traces tid <;> rfl

theorem notifyTraceOwner_clock_ge (s : PipelineState) (tid : Nat) (a b : String) :
    s.clock ≤ (notifyTraceOwner s tid a b).clock := by
  unfold notifyTraceOwner
  cases lookupTrace s.traces tid <;> simp

theorem auditRecord_issues (s : PipelineState) (actor : Option Nat) (aty rty : String)
    (rid : Nat) (meta : String) :
    (auditRecord s actor aty rty rid meta).issues = s.issues := rfl

theorem updIssue_preserves_match (tid : Nat) (fp : String) (iid now : Nat) (ev : String)
    (j : Issue) :
    openAssignedMatch tid fp (updIssue iid now ev j) = openAssignedMatch tid fp j := by
  unfold updIssue
  split <;> rfl

theorem updIssue_preserves_key_fields (iid now : Nat) (ev : String) (j : Issue) :
    (updIssue iid now ev j).id = j.id ∧ (updIssue iid now ev j).status = j.status ∧
      (updIssue iid now ev j).severity = j.severity := by
  unfold updIssue
  split <;> exact ⟨rfl, rfl, rfl⟩

theorem find?_map_of_preserved {α : Type} (l : List α) (g : α → α) (p : α → Bool)
    (h : ∀ x, p (g x) = p x) : (l.map g).find? p = (l.find? p).map g := by
  induction l with
  | nil => rfl
  | cons a l ih =>
      by_cases hpa : p a = true
      · have hga : p (g a) = true := by rw [h a]; exact hpa
        rw [List.map_cons, List.find?_cons_of_pos _ hga, List.find?_cons_of_pos _ hpa,
          Option.map_some']
      · have hga : ¬ p (g a) = true := by rw [h a]; exact hpa
        rw [List.map_cons, List.find?_cons_of_neg _ hga, List.find?_cons_of_neg _ hpa]
        exact ih

theorem countP_map_of_preserved {α : Type} (l : List α) (g : α → α) (p : α → Bool)
    (h : ∀ x, p (g x) = p x) : (l.map g).countP p = l.countP p := by
  rw [List.countP_map]
  exact List.countP_congr (fun x _ => by simp [Function.comp, h x])

theorem map_map_of_preserved {α β : Type} (l : List α) (g : α → α) (pr : α → β)
    (h : ∀ x, pr (g x) = pr x) : (l.map g).map pr = l.map pr := by
  induction l with
  | nil => rfl
  | cons a l ih => simp [h a, ih]

theorem apply_finding_create_eq (s : PipelineState) (tid : Nat) (f : Finding)
    (h : s.issues.find? (openAssignedMatch tid f.fingerprint) = none) :
    apply_finding s tid f =
      notifyTraceOwner
        (auditRecord { s with issues := s.issues ++ [mkIssue s tid f], clock := s.clock + 1 }
          none "issue_detected" "issue" (mkIssue s tid f).id f.title)
        tid "issue_created" f.title := by
  unfold apply_finding
  rw [h]

theorem apply_finding_create (s : PipelineState) (tid : Nat) (f : Finding)
    (h : s.issues.find? (openAssignedMatch tid f.fingerprint) = none) :
    (apply_finding s tid f).issues = s.issues ++ [mkIssue s tid f] := by
  rw [apply_finding_create_eq s tid f h, notifyTraceOwner_issues]
  rfl

theorem apply_finding_update (s : PipelineState) (tid : Nat) (f : Finding) (i : Issue)
    (h : s.issues.find? (openAssignedMatch tid f.fingerprint) = some i) :
    apply_finding s tid f =
      { s with issues := s.issues.map (updIssue i.id s.clock f.evidence),
               clock := s.clock + 1 } := by
  unfold apply_finding
  rw [h]

theorem apply_finding_clock_lt (s : PipelineState) (tid : Nat) (f : Finding) :
    s.clock < (apply_finding s tid f).clock := by
  cases h : s.issues.find? (openAssignedMatch tid f.fingerprint) with
  | some i =>
      rw [apply_finding_update s tid f i h]
      simp
  | none =>
      rw [apply_finding_create_eq s tid f h]
      have h1 := notifyTraceOwner_clock_ge
        (auditRecord { s with issues := s.issues ++ [mkIssue s tid f], clock := s.clock + 1 }
          none "issue_detected" "issue" (mkIssue s tid f).id f.title) tid "issue_created" f.title
      have h2 :
          (auditRecord
            { s with issues := s.issues ++ [mkIssue s tid f], clock := s.clock + 1 }
            none "issue_detected" "issue" (mkIssue s tid f).id f.title).clock
            = s.clock + 2 := rfl
      omega

theorem notifyTraceOwner_traces (s : PipelineState) (tid : Nat) (a b : String) :
    (notifyTraceOwner s tid a b).traces = s.traces := by
  unfold notifyTraceOwner
  cases lookupTrace s.traces tid <;> rfl

theorem notifyTraceOwner_audit (s : PipelineState) (tid : Nat) (a b : String) :
    (notifyTraceOwner s tid a b).audit = s.audit := by
  unfold notifyTraceOwner
  cases lookupTrace s.traces tid <;> rfl

theorem start_analysis_pending (s : PipelineState) (tid : Nat) (t : Trace)
    (hfind : lookupTrace s.traces tid = some t) (hst : t.status = .pending) :
    start_analysis s tid =
      ({ s with traces := updateTraceStatus s.traces tid .analyzing }, none) := by
  unfold start_analysis
  rw [hfind]
  simp only [hst]

theorem start_analysis_already (s : PipelineState) (tid : Nat) (t : Trace)
    (hfind : lookupTrace s.traces tid = some t) (hst : t.status = .analyzing) :
    start_analysis s tid = (s, some .AlreadyRunning) := by
  unfold start_analysis
  rw [hfind]
  simp only [hst]

theorem mkIssue_matches (s : PipelineState) (tid : Nat) (f : Finding) :
    openAssignedMatch tid f.fingerprint (mkIssue s tid f) = true := by
  show (tid == tid && (f.fingerprint == f.fingerprint) &&
    ((IssueStatus.open_ == IssueStatus.open_) ||
      (IssueStatus.open_ == IssueStatus.assigned))) = true
  rw [beq_self_eq_true, beq_self_eq_true]
  rfl

/-! Claim theorems. -/

/-- C1: a run is represented by the `analyzing` status of the (single) trace
record for a trace id, so at most one active run per trace id exists at any
time; `start_analysis` on a `pending` trace atomically transitions exactly
that trace to `analyzing` touching no other state, and a second invocation
for the same trace id fails with `AlreadyRunning`, performing no further
action (it returns the state it was given, unchanged). -/
theorem C1_start_analysis_single_active (s : PipelineState) (tid : Nat) (t : Trace)
    (hfind : lookupTrace s.traces tid = some t) (hst : t.status = .pending) :
    ∃ s1, start_analysis s tid = (s1, none) ∧
      lookupTrace s1.traces tid = some { t with status := .analyzing } ∧
      s1.issues = s.issues ∧ s1.notifications = s.notifications ∧ s1.audit = s.audit ∧
      start_analysis s1 tid = (s1, some .AlreadyRunning) := by
  have hfind1 : lookupTrace (updateTraceStatus s.traces tid .analyzing) tid
      = some { t with status := .analyzing } := by
    rw [lookupTrace_updateTraceStatus, hfind, Option.map_some']
  refine ⟨{ s with traces := updateTraceStatus s.traces tid .analyzing },
    start_analysis_pending s tid t hfind hst, hfind1, rfl, rfl, rfl, ?_⟩
  exact start_analysis_already _ tid { t with status := .analyzing } hfind1 rfl

/-- C1 witness: the guarantee evaluated on a one-trace store with a pending
trace. -/
theorem C1_start_analysis_single_active_witness :
    ∃ s1, start_analysis
        { traces := [{ id := 1, owner_id := 9, file_name := "a.json", byte_size := 4,
                       uploaded_at := 0, status := .pending }],
          issues := [], notifications := [], audit := [], clock := 0 } 1 = (s1, none) ∧
      lookupTrace s1.traces 1 =
        some { id := 1, owner_id := 9, file_name := "a.json", byte_size := 4,
               uploaded_at := 0, status := .analyzing } ∧
      s1.issues = [] ∧ s1.notifications = [] ∧ s1.audit = [] ∧
      start_analysis s1 1 = (s1, some .AlreadyRunning) :=
  C1_start_analysis_single_active _ 1
    { id := 1, owner_id := 9, file_name := "a.json", byte_size := 4,
      uploaded_at := 0, status := .pending } rfl rfl

/-- C10: once the authentication state has finished loading, the route guard
renders protected content without authentication exactly when the current
path is the root path; any other path with no current user is redirected to
the login page. -/
theorem C10_protected_route_guard (p : String) :
    (Frontend.protectedRoute false p none = .content ↔ p = "/") ∧
    (p ≠ "/" → Frontend.protectedRoute false p none = .redirectLogin) := by
  constructor
  · constructor
    · intro h
      by_contra hp
      simp [Frontend.protectedRoute, hp] at h
    · intro h
      simp [Frontend.protectedRoute, h]
  · intro h
    simp [Frontend.protectedRoute, h]

/-- C10 witness: a non-root path with no current user is redirected. -/
theorem C10_protected_route_guard_witness :
    ("/issues" : String) ≠ "/" ∧
      Frontend.protectedRoute false "/issues" none = .redirectLogin :=
  ⟨by decide, (C10_protected_route_guard "/issues").2 (by decide)⟩

/-- C8: the audit listing request carries exactly the parameters
`action_type`, `resource_type`, `start_date` and `end_date` for the filters
that are set (non-empty) and omits the parameters for filters left empty. -/
theorem C8_audit_filter_params (f : Frontend.AuditFilters) (k v : String) :
    (k, v) ∈ Frontend.buildAuditParams f ↔
      (k = "action_type" ∧ v = f.actionType ∧ f.actionType ≠ "") ∨
      (k = "resource_type" ∧ v = f.resourceType ∧ f.resourceType ≠ "") ∨
      (k = "start_date" ∧ v = f.startDate ∧ f.startDate ≠ "") ∨
      (k = "end_date" ∧ v = f.endDate ∧ f.endDate ≠ "") := by
  unfold Frontend.buildAuditParams
  split_ifs <;> simp_all [Prod.ext_iff]

/-- C9: the notification centre requests only unread notifications
(`unread_only = true`), and in every reachable component state the unread
badge count equals the number of notifications returned by that query. -/
theorem C9_unread_badge (s : Frontend.NCState) (h : Frontend.NCReachable s) :
    s.unreadCount = s.notifications.length ∧
      ("unread_only", "true") ∈ Frontend.fetchNotificationsParams := by
  refine ⟨?_, by simp [Frontend.fetchNotificationsParams]⟩
  induction h with
  | init => rfl
  | step e hr ih =>
      cases e with
      | fetched data => rfl
      | opened => exact ih
      | closed => exact ih

/-- C9 witness: the invariant evaluated after one fetch response. -/
theorem C9_unread_badge_witness :
    (Frontend.ncStep Frontend.ncInit (.fetched [{ id := 1, title := "t", message := "m" }])).unreadCount
        = (Frontend.ncStep Frontend.ncInit
            (.fetched [{ id := 1, title := "t", message := "m" }])).notifications.length ∧
      ("unread_only", "true") ∈ Frontend.fetchNotificationsParams :=
  C9_unread_badge _ (Frontend.NCReachable.step _ Frontend.NCReachable.init)

/-- C3 counterexample: the trace list performs a delete for a trace whose
status is `analyzing` — the delete button consults only the in-flight
`loading` flag, so with `loading = false` the click on an analyzing trace
goes through and `handleDelete` issues the DELETE request. -/
theorem C3_delete_analyzing_counterexample :
    Frontend.deletePerformedOnClick
      { id := 7, file_name := "trace.json", created_at := "2024-01-01", file_size := 123,
        status := "analyzing" } false = true ∧
    Frontend.handleDelete 7 =
      [{ method := "DELETE", path := "/logs/traces/7", body := [] },
       { method := "GET", path := "/logs/traces", body := [] }] :=
  ⟨rfl, rfl⟩

/-- C3 (amended): the trace list offers deletion for every trace regardless
of its status — availability of the delete action depends only on the
in-flight `loading` flag, and `handleDelete` unconditionally issues the
DELETE request for the clicked trace id. -/
theorem C3_delete_ignores_status (trace : Frontend.TraceRow) (loading : Bool) :
    Frontend.deletePerformedOnClick trace loading = !loading ∧
    Frontend.handleDelete trace.id =
      [{ method := "DELETE", path := "/logs/traces/" ++ toString trace.id, body := [] },
       { method := "GET", path := "/logs/traces", body := [] }] :=
  ⟨rfl, rfl⟩

/-- C4: failing input for the claim — dragging issue 1 from the `todo` column
to the `in_progress` column makes the sprint board PATCH the issue with
status `in_progress`, a value outside the issue status domain
(open, assigned, resolved, closed) required by the data model and offered by
the IssuesPage update dialog. -/
theorem C4_sprint_board_writes_foreign_status :
    Frontend.handleDragEnd
        { draggableId := "1", sourceId := "todo", destinationId := some "in_progress" } =
      some { method := "PATCH", path := "/issues/1", body := [("status", "in_progress")] } ∧
    "in_progress" ∉ Frontend.issueStatusDomain ∧
    "in_progress" ∈ Frontend.sprintBoardColumns ∧
    Frontend.issuesPageStatusOptions = ["open", "assigned", "resolved", "closed"] := by
  refine ⟨rfl, by decide, by decide, rfl⟩

/-- C5: a run whose payload is malformed (the engine reports a parse error)
ends with the trace `failed`, zero issues created, zero notifications
produced, and the audit log extended by exactly a `trace_analysis_start`
entry followed by one `trace_analysis_failed` entry. -/
theorem C5_malformed_trace_failed (s : PipelineState) (tid : Nat) (t : Trace) (msg : String)
    (hfind : lookupTrace s.traces tid = some t) (hst : t.status = .pending) :
    ∃ s', run_pipeline s tid (.error msg) = (s', none) ∧
      lookupTrace s'.traces tid = some { t with status := .failed } ∧
      s'.issues = s.issues ∧
      s'.notifications = s.notifications ∧
      s'.audit.map (fun e => e.action_type) =
        s.audit.map (fun e => e.action_type) ++
          ["trace_analysis_start", "trace_analysis_failed"] := by
  have hsa := start_analysis_pending s tid t hfind hst
  unfold run_pipeline
  rw [hsa]
  refine ⟨_, rfl, ?_, rfl, rfl, ?_⟩
  · show lookupTrace
        (updateTraceStatus (updateTraceStatus s.traces tid .analyzing) tid .failed) tid = _
    rw [lookupTrace_updateTraceStatus, lookupTrace_updateTraceStatus, hfind]
    rfl
  · simp [auditRecord]

/-- C5 witness: a malformed payload on a one-trace store. -/
theorem C5_malformed_trace_failed_witness :
    ∃ s', run_pipeline
        { traces := [{ id := 1, owner_id := 9, file_name := "a.json", byte_size := 4,
                       uploaded_at := 0, status := .pending }],
          issues := [], notifications := [], audit := [], clock := 0 } 1
        (.error "unparsable") = (s', none) ∧
      lookupTrace s'.traces 1 =
        some { id := 1, owner_id := 9, file_name := "a.json", byte_size := 4,
               uploaded_at := 0, status := .failed } ∧
      s'.issues = [] ∧
      s'.notifications = [] ∧
      s'.audit.map (fun e => e.action_type) =
        ([] : List AuditEntry).map (fun e => e.action_type) ++
          ["trace_analysis_start", "trace_analysis_failed"] :=
  C5_malformed_trace_failed _ 1
    { id := 1, owner_id := 9, file_name := "a.json", byte_size := 4,
      uploaded_at := 0, status := .pending } "unparsable" rfl rfl

/-- C6: a run that succeeds with zero findings ends with the trace
`completed`, zero issues created, and the audit log extended by exactly a
`trace_analysis_start` entry followed by one `trace_analysis_completed`
entry (in particular, zero issue-related audit entries). -/
theorem C6_zero_findings_completed (s : PipelineState) (tid : Nat) (t : Trace)
    (hfind : lookupTrace s.traces tid = some t) (hst : t.status = .pending) :
    ∃ s', run_pipeline s tid (.ok []) = (s', none) ∧
      lookupTrace s'.traces tid = some { t with status := .completed } ∧
      s'.issues = s.issues ∧
      s'.audit.map (fun e => e.action_type) =
        s.audit.map (fun e => e.action_type) ++
          ["trace_analysis_start", "trace_analysis_completed"] := by
  have hsa := start_analysis_pending s tid t hfind hst
  unfold run_pipeline
  rw [hsa]
  refine ⟨_, rfl, ?_, ?_, ?_⟩
  · simp only [auditRecord, notifyTraceOwner_traces, List.foldl_nil]
    rw [lookupTrace_updateTraceStatus, lookupTrace_updateTraceStatus, hfind]
    rfl
  · simp only [auditRecord, notifyTraceOwner_issues, List.foldl_nil]
  · simp only [List.foldl_nil]
    simp [auditRecord, notifyTraceOwner_audit]

/-- C6 witness: an engine success with an empty finding list on a one-trace
store. -/
theorem C6_zero_findings_completed_witness :
    ∃ s', run_pipeline
        { traces := [{ id := 1, owner_id := 9, file_name := "a.json", byte_size := 4,
                       uploaded_at := 0, status := .pending }],
          issues := [], notifications := [], audit := [], clock := 0 } 1
        (.ok []) = (s', none) ∧
      lookupTrace s'.traces 1 =
        some { id := 1, owner_id := 9, file_name := "a.json", byte_size := 4,
               uploaded_at := 0, status := .completed } ∧
      s'.issues = [] ∧
      s'.audit.map (fun e => e.action_type) =
        ([] : List AuditEntry).map (fun e => e.action_type) ++
          ["trace_analysis_start", "trace_analysis_completed"] :=
  C6_zero_findings_completed _ 1
    { id := 1, owner_id := 9, file_name := "a.json", byte_size := 4,
      uploaded_at := 0, status := .pending } rfl rfl

/-- C2: two findings with the same fingerprint applied against the same trace
leave exactly one open-or-assigned Issue with that fingerprint; moreover
applying any repeat finding whose fingerprint matches an existing
open-or-assigned Issue keeps every issue's id, status and severity unchanged
and rewrites the matched issue to the same record with `updated_at` refreshed
and the new evidence appended. -/
theorem C2_fingerprint_dedup (s : PipelineState) (tid : Nat) (fp : String)
    (f1 f2 : Finding)
    (hnone : ∀ i ∈ s.issues, openAssignedMatch tid fp i = false)
    (h1 : f1.fingerprint = fp) (h2 : f2.fingerprint = fp) :
    openAssignedCount (apply_finding (apply_finding s tid f1) tid f2).issues tid fp = 1 ∧
    (∀ (u : PipelineState) (i : Issue) (f : Finding),
      u.issues.find? (openAssignedMatch tid f.fingerprint) = some i →
      (apply_finding u tid f).issues.map (fun j => (j.id, j.status, j.severity)) =
        u.issues.map (fun j => (j.id, j.status, j.severity)) ∧
      (apply_finding u tid f).issues.find? (openAssignedMatch tid f.fingerprint) =
        some { i with updated_at := u.clock, evidence := i.evidence ++ [f.evidence] }) := by
  subst h1
  constructor
  · have hfind0 : s.issues.find? (openAssignedMatch tid f1.fingerprint) = none :=
      List.find?_eq_none.mpr (fun x hx => by simp [hnone x hx])
    have hA := apply_finding_create s tid f1 hfind0
    have hfindA : (apply_finding s tid f1).issues.find?
        (openAssignedMatch tid f2.fingerprint) = some (mkIssue s tid f1) := by
      rw [h2, hA, List.find?_append, hfind0, Option.none_or,
        List.find?_cons_of_pos _ (mkIssue_matches s tid f1)]
    have hB := apply_finding_update (apply_finding s tid f1) tid f2
      (mkIssue s tid f1) hfindA
    have hc1 : (apply_finding s tid f1).issues.countP
        (openAssignedMatch tid f1.fingerprint) = 1 := by
      rw [hA, List.countP_append,
        List.countP_eq_zero.mpr (fun x hx => by simp [hnone x hx])]
      simp [List.countP_cons, mkIssue_matches]
    show (apply_finding (apply_finding s tid f1) tid f2).issues.countP
        (openAssignedMatch tid f1.fingerprint) = 1
    rw [hB]
    show ((apply_finding s tid f1).issues.map
        (updIssue (mkIssue s tid f1).id (apply_finding s tid f1).clock f2.evidence)).countP
        (openAssignedMatch tid f1.fingerprint) = 1
    rw [countP_map_of_preserved _ _ _ (fun x => updIssue_preserves_match _ _ _ _ _ x)]
    exact hc1
  · intro u i f hf
    have hupd := apply_finding_update u tid f i hf
    constructor
    · rw [hupd]
      exact map_map_of_preserved u.issues _ _
        (fun x => by unfold updIssue; split <;> rfl)
    · rw [hupd]
      show (u.issues.map (updIssue i.id u.clock f.evidence)).find?
          (openAssignedMatch tid f.fingerprint) = _
      rw [find?_map_of_preserved _ _ _ (fun x => updIssue_preserves_match _ _ _ _ _ x),
        hf, Option.map_some']
      simp [updIssue]

/-- C2 witness: two findings sharing a fingerprint applied in sequence
against trace 1, starting from an empty issue store. -/
theorem C2_fingerprint_dedup_witness :
    openAssignedCount
      (apply_finding
        (apply_finding
          { traces := [{ id := 1, owner_id := 9, file_name := "a.json", byte_size := 4,
                         uploaded_at := 0, status := .pending }],
            issues := [], notifications := [], audit := [], clock := 0 } 1
          { kind := "error_rate_spike", severity := .high, title := "spike",
            description := "d", fingerprint := "fp1", evidence := "e1" }) 1
        { kind := "error_rate_spike", severity := .high, title := "spike",
          description := "d", fingerprint := "fp1", evidence := "e2" }).issues 1 "fp1" = 1 :=
  (C2_fingerprint_dedup _ 1 "fp1" _ _ (by simp) rfl rfl).1

/-- C7: applying the same Finding object twice in sequence yields exactly one
open-or-assigned Issue for its fingerprint, and the issue found after the
second application has a strictly later `updated_at` than the issue found
after the first. -/
theorem C7_apply_finding_idempotent (s : PipelineState) (tid : Nat) (f : Finding)
    (hnone : ∀ i ∈ s.issues, openAssignedMatch tid f.fingerprint i = false) :
    ∃ j1 j2,
      (apply_finding s tid f).issues.find? (openAssignedMatch tid f.fingerprint) =
        some j1 ∧
      (apply_finding (apply_finding s tid f) tid f).issues.find?
          (openAssignedMatch tid f.fingerprint) = some j2 ∧
      openAssignedCount (apply_finding s tid f).issues tid f.fingerprint = 1 ∧
      openAssignedCount (apply_finding (apply_finding s tid f) tid f).issues
          tid f.fingerprint = 1 ∧
      j1.updated_at < j2.updated_at := by
  have hfind0 : s.issues.find? (openAssignedMatch tid f.fingerprint) = none :=
    List.find?_eq_none.mpr (fun x hx => by simp [hnone x hx])
  have hA := apply_finding_create s tid f hfind0
  have hfindA : (apply_finding s tid f).issues.find?
      (openAssignedMatch tid f.fingerprint) = some (mkIssue s tid f) := by
    rw [hA, List.find?_append, hfind0, Option.none_or,
      List.find?_cons_of_pos _ (mkIssue_matches s tid f)]
  have hB := apply_finding_update (apply_finding s tid f) tid f (mkIssue s tid f) hfindA
  have hfindB : (apply_finding (apply_finding s tid f) tid f).issues.find?
      (openAssignedMatch tid f.fingerprint) =
      some (updIssue (mkIssue s tid f).id (apply_finding s tid f).clock f.evidence
        (mkIssue s tid f)) := by
    rw [hB]
    show ((apply_finding s tid f).issues.map
        (updIssue (mkIssue s tid f).id (apply_finding s tid f).clock f.evidence)).find?
        (openAssignedMatch tid f.fingerprint) = _
    rw [find?_map_of_preserved _ _ _ (fun x => updIssue_preserves_match _ _ _ _ _ x),
      hfindA, Option.map_some']
  have hc1 : openAssignedCount (apply_finding s tid f).issues tid f.fingerprint = 1 := by
    show (apply_finding s tid f).issues.countP (openAssignedMatch tid f.fingerprint) = 1
    rw [hA, List.countP_append,
      List.countP_eq_zero.mpr (fun x hx => by simp [hnone x hx])]
    simp [List.countP_cons, mkIssue_matches]
  have hc2 : openAssignedCount (apply_finding (apply_finding s tid f) tid f).issues
      tid f.fingerprint = 1 := by
    show (apply_finding (apply_finding s tid f) tid f).issues.countP
        (openAssignedMatch tid f.fingerprint) = 1
    rw [hB]
    show ((apply_finding s tid f).issues.map
        (updIssue (mkIssue s tid f).id (apply_finding s tid f).clock f.evidence)).countP
        (openAssignedMatch tid f.fingerprint) = 1
    rw [countP_map_of_preserved _ _ _ (fun x => updIssue_preserves_match _ _ _ _ _ x)]
    exact hc1
  refine ⟨mkIssue s tid f, _, hfindA, hfindB, hc1, hc2, ?_⟩
  have hself : ((mkIssue s tid f).id == (mkIssue s tid f).id) = true := beq_self_eq_true _
  show (mkIssue s tid f).updated_at <
    (updIssue (mkIssue s tid f).id (apply_finding s tid f).clock f.evidence
      (mkIssue s tid f)).updated_at
  unfold updIssue
  rw [if_pos hself]
  exact apply_finding_clock_lt s tid f

/-- C7 witness: the same finding applied twice against trace 1, starting
from an empty issue store. -/
theorem C7_apply_finding_idempotent_witness :
    ∃ j1 j2,
      (apply_finding
        { traces := [{ id := 1, owner_id := 9, file_name := "a.json", byte_size := 4,
                       uploaded_at := 0, status := .pending }],
          issues := [], notifications := [], audit := [], clock := 0 } 1
        { kind := "error_rate_spike", severity := .high, title := "spike",
          description := "d", fingerprint := "fp1", evidence := "e1" }).issues.find?
          (openAssignedMatch 1 "fp1") = some j1 ∧
      (apply_finding
        (apply_finding
          { traces := [{ id := 1, owner_id := 9, file_name := "a.json", byte_size := 4,
                         uploaded_at := 0, status := .pending }],
            issues := [], notifications := [], audit := [], clock := 0 } 1
          { kind := "error_rate_spike", severity := .high, title := "spike",
            description := "d", fingerprint := "fp1", evidence := "e1" }) 1
        { kind := "error_rate_spike", severity := .high, title := "spike",
          description := "d", fingerprint := "fp1", evidence := "e1" }).issues.find?
          (openAssignedMatch 1 "fp1") = some j2 ∧
      openAssignedCount
        (apply_finding
          { traces := [{ id := 1, owner_id := 9, file_name := "a.json", byte_size := 4,
                         uploaded_at := 0, status := .pending }],
            issues := [], notifications := [], audit := [], clock := 0 } 1
          { kind := "error_rate_spike", severity := .high, title := "spike",
            description := "d", fingerprint := "fp1", evidence := "e1" }).issues 1 "fp1" = 1 ∧
      openAssignedCount
        (apply_finding
          (apply_finding
            { traces := [{ id := 1, owner_id := 9, file_name := "a.json", byte_size := 4,
                           uploaded_at := 0, status := .pending }],
              issues := [], notifications := [], audit := [], clock := 0 } 1
            { kind := "error_rate_spike", severity := .high, title := "spike",
              description := "d", fingerprint := "fp1", evidence := "e1" }) 1
          { kind := "error_rate_spike", severity := .high, title := "spike",
            description := "d", fingerprint := "fp1", evidence := "e1" }).issues 1 "fp1" = 1 ∧
      j1.updated_at < j2.updated_at :=
  C7_apply_finding_idempotent _ 1
    { kind := "error_rate_spike", severity := .high, title := "spike",
      description := "d", fingerprint := "fp1", evidence := "e1" } (by simp)

end MvpBeta
